import Mathlib

/-
Verification development for the AIRecruimentAPI backend.

The definitions below are a shallow embedding of the JavaScript source:
  * src/config/groq.js            (evaluateCV and its two fallback payloads)
  * the Gemini client             (normalizeEvaluation, evaluateCVWithText)
  * src/routes/applications.js    (POST /, PUT /:id, DELETE /:id handlers)
  * src/routes/evaluations.js     (POST /reevaluate handler)
  * the database transaction helper (BEGIN / callback / COMMIT-ROLLBACK)

JavaScript dynamic values are modelled by `JsValue`; machine behaviour such
as truthiness, String(v) conversion and parseInt is spelled out explicitly.
External effects (the AI HTTP call, the object store, postgres) are modelled
by explicit outcome records: a route handler is a pure function from the
request, the environment outcomes and the current state to a result record
carrying the HTTP status, the new database/storage state and a trace of the
events the handler performed, in source order.
-/

namespace AIRecruit

/-- A JavaScript/JSON value as seen by the route handlers: null, booleans,
numbers (modelled as Int: every score the code manipulates is integral),
the distinguished NaN, strings, arrays and objects. -/
inductive JsValue where
  | null : JsValue
  | bool (b : Bool) : JsValue
  | num (n : Int) : JsValue
  | nan : JsValue
  | str (s : String) : JsValue
  | arr (xs : List JsValue) : JsValue
  | obj (fields : List (String × JsValue)) : JsValue

/-- JavaScript truthiness of a value: false, 0, NaN, the empty string and
null are falsy; every array and object is truthy. -/
def jsTruthy : JsValue → Bool
  | JsValue.null => false
  | JsValue.bool b => b
  | JsValue.num n => n != 0
  | JsValue.nan => false
  | JsValue.str s => !s.isEmpty
  | JsValue.arr _ => true
  | JsValue.obj _ => true

/-- JavaScript truthiness of a possibly-undefined value (none models
undefined, which is falsy). -/
def jsTruthyOpt : Option JsValue → Bool
  | none => false
  | some v => jsTruthy v

/-- Property read on an object: first field with the given key, none models
undefined. -/
def objGet (fields : List (String × JsValue)) (k : String) : Option JsValue :=
  (fields.find? (fun p => p.1 == k)).map (fun p => p.2)

/-- The JavaScript in-operator on an object: key presence. -/
def objHasKey (fields : List (String × JsValue)) (k : String) : Bool :=
  fields.any (fun p => p.1 == k)

mutual

/-- JavaScript String(v) conversion, as used implicitly by parseInt. -/
def jsToString : JsValue → String
  | JsValue.null => "null"
  | JsValue.bool true => "true"
  | JsValue.bool false => "false"
  | JsValue.num n => toString n
  | JsValue.nan => "NaN"
  | JsValue.str s => s
  | JsValue.arr xs => jsArrJoin xs
  | JsValue.obj _ => "[object Object]"

/-- Array.prototype.toString: elements joined with commas, null rendered as
the empty string. -/
def jsArrJoin : List JsValue → String
  | [] => ""
  | [JsValue.null] => ""
  | [x] => jsToString x
  | JsValue.null :: x :: xs => "," ++ jsArrJoin (x :: xs)
  | x :: y :: xs => jsToString x ++ "," ++ jsArrJoin (y :: xs)

end

/-- Decimal digits folded into a Nat. -/
def decDigitsToNat (ds : List Char) : Nat :=
  ds.foldl (fun a c => a * 10 + (c.toNat - 48)) 0

/-- Hexadecimal digit value. -/
def hexDigitVal (c : Char) : Nat :=
  if c.isDigit then c.toNat - 48
  else if 'a' ≤ c ∧ c ≤ 'f' then c.toNat - 87
  else c.toNat - 55

/-- Is the character a hexadecimal digit. -/
def isHexDigitChar (c : Char) : Bool :=
  c.isDigit || ('a' ≤ c && c ≤ 'f') || ('A' ≤ c && c ≤ 'F')

/-- Hexadecimal digits folded into a Nat. -/
def hexDigitsToNat (ds : List Char) : Nat :=
  ds.foldl (fun a c => a * 16 + hexDigitVal c) 0

/-- Magnitude part of JavaScript parseInt: an optional 0x/0X prefix selects
hexadecimal, otherwise the longest leading run of decimal digits; none when
no digit is found (NaN). -/
def parseIntMag (cs : List Char) : Option Nat :=
  match cs with
  | '0' :: 'x' :: rest =>
    let ds := rest.takeWhile isHexDigitChar
    if ds.isEmpty then none else some (hexDigitsToNat ds)
  | '0' :: 'X' :: rest =>
    let ds := rest.takeWhile isHexDigitChar
    if ds.isEmpty then none else some (hexDigitsToNat ds)
  | _ =>
    let ds := cs.takeWhile Char.isDigit
    if ds.isEmpty then none else some (decDigitsToNat ds)

/-- JavaScript parseInt on a string: skip leading whitespace, optional
sign, then the leading integer literal; none models NaN. -/
def parseIntOfChars (cs : List Char) : Option Int :=
  let cs := cs.dropWhile (fun c => c == ' ' || c == '\t' || c == '\n' || c == '\r')
  match cs with
  | '-' :: rest => (parseIntMag rest).map (fun n => -(n : Int))
  | '+' :: rest => (parseIntMag rest).map (fun n => (n : Int))
  | rest => (parseIntMag rest).map (fun n => (n : Int))

/-- JavaScript parseInt on an arbitrary value: the argument is first
converted to a string. -/
def jsParseInt (v : JsValue) : Option Int :=
  parseIntOfChars (jsToString v).toList

/-- Math.max(0, Math.min(100, x)) with NaN propagation: none (NaN) stays
none, a number is clamped into [0, 100]. -/
def clampScore : Option Int → Option Int
  | none => none
  | some n => some (max 0 (min 100 n))

/-- Result shape of both scoring clients: score (none models NaN),
strengths, weaknesses and summary exactly as the JavaScript object holds
them. -/
structure EvalResult where
  score : Option Int
  strengths : List JsValue
  weaknesses : List JsValue
  summary : JsValue

/-- groq.js outer-catch fallback: returned on any thrown error (transport
failure, missing content, safety-filtered response). -/
def groqErrorFallback : EvalResult :=
  { score := some 0
    strengths := [JsValue.str "Evaluación pendiente", JsValue.str "Requiere revisión manual"]
    weaknesses := [JsValue.str "Error en procesamiento automático", JsValue.str "Información no disponible"]
    summary := JsValue.str "Error en la evaluación automática. Se requiere revisión manual del candidato." }

/-- groq.js inner-catch fallback: returned when JSON.parse throws or the
parsed object fails the completeness check. -/
def groqParseFallback : EvalResult :=
  { score := some 50
    strengths := [JsValue.str "Candidato presenta experiencia en el área", JsValue.str "Perfil con potencial de desarrollo"]
    weaknesses := [JsValue.str "Requiere evaluación más detallada", JsValue.str "Información limitada para análisis completo"]
    summary := JsValue.str "Evaluación requiere revisión manual debido a error en el procesamiento automático." }

/-- Gemini client catch fallback, shared by evaluateCVWithFile and
evaluateCVWithText. -/
def geminiFallback : EvalResult :=
  { score := some 0
    strengths := [JsValue.str "Evaluación pendiente", JsValue.str "Requiere revisión manual", JsValue.str "Error de IA"]
    weaknesses := [JsValue.str "Error en procesamiento automático", JsValue.str "Información no disponible", JsValue.str "Fallo en la API"]
    summary := JsValue.str "Error en la evaluación automática con Gemini. Se requiere revisión manual del candidato." }

/-- Does the character list contain the letters s a f e consecutively. -/
def hasSafeChars : List Char → Bool
  | [] => false
  | c :: rest => List.isPrefixOf ['s', 'a', 'f', 'e'] (c :: rest) || hasSafeChars rest

/-- ASCII lower-casing of one character, as toLowerCase acts on the
characters relevant here. -/
def jsCharToLower (c : Char) : Char :=
  if 'A' ≤ c && c ≤ 'Z' then Char.ofNat (c.toNat + 32) else c

/-- The whitespace characters String.prototype.trim strips. -/
def isJsSpace (c : Char) : Bool :=
  c == ' ' || c == '\t' || c == '\n' || c == '\r'

/-- String.prototype.trim over the character list. -/
def jsTrimChars (cs : List Char) : List Char :=
  ((cs.dropWhile isJsSpace).reverse.dropWhile isJsSpace).reverse

/-- response.trim().toLowerCase().includes of the safety marker word used
by groq.js to detect filtered responses. -/
def containsSafe (s : String) : Bool :=
  hasSafeChars ((jsTrimChars s.toList).map jsCharToLower)

/-- The Array.isArray conditional of evaluateCV: an array value is sliced
to its first two elements, anything else is replaced by the fixed pair of
placeholder strings. -/
def groqListOfField (v : Option JsValue) (d1 d2 : String) : List JsValue :=
  match v with
  | some (JsValue.arr xs) => xs.take 2
  | _ => [JsValue.str d1, JsValue.str d2]

/-- Upstream behaviour of one Groq chat-completion call, at the granularity
the code inspects it: whether the request itself threw (transport error or
timeout), the returned message content (none models a missing
choices[0].message.content), and the outcome of JSON.parse on the cleaned
response (none models a parse exception). -/
structure GroqUpstream where
  transportError : Bool
  content : Option String
  parsed : Option JsValue

/-- evaluateCV from src/config/groq.js. The prompt built from cvText and
jobDescription only shapes the upstream response, which is supplied by u.
Branches, in source order: a thrown request is caught by the outer catch
(error fallback, score 0); a missing or empty content throws (error
fallback); a response containing the safety marker throws (error fallback);
a JSON.parse failure hits the inner catch (parse fallback, score 50); a
parsed value whose score, strengths or weaknesses property is falsy throws
inside the inner try (parse fallback); otherwise the score is clamped via
parseInt, strengths and weaknesses are sliced to at most 2 elements when
they are arrays (replaced by a fixed pair otherwise), and a falsy summary is
defaulted. -/
def evaluateCV (cvText jobDescription : String) (u : GroqUpstream) : EvalResult :=
  if u.transportError then groqErrorFallback
  else
    match u.content with
    | none => groqErrorFallback
    | some response =>
      if response.isEmpty then groqErrorFallback
      else if containsSafe response then groqErrorFallback
        else
          match u.parsed with
          | none => groqParseFallback
          | some (JsValue.obj fields) =>
            if !jsTruthyOpt (objGet fields "score")
                || !jsTruthyOpt (objGet fields "strengths")
                || !jsTruthyOpt (objGet fields "weaknesses") then
              groqParseFallback
            else
              { score := clampScore (jsParseInt ((objGet fields "score").getD JsValue.null))
                strengths := groqListOfField (objGet fields "strengths") "Evaluación pendiente" "Requiere revisión"
                weaknesses := groqListOfField (objGet fields "weaknesses") "Información limitada" "Análisis incompleto"
                summary :=
                  let sv := (objGet fields "summary").getD JsValue.null
                  if jsTruthy sv then sv else JsValue.str "Evaluación completada automáticamente" }
          | some _ => groqParseFallback

/-- Take at most three elements and pad with the filler string up to three,
as the two while-loops of normalizeEvaluation do. -/
def padToThree (xs : List JsValue) (filler : String) : List JsValue :=
  let t := xs.take 3
  t ++ List.replicate (3 - t.length) (JsValue.str filler)

/-- normalizeEvaluation from the Gemini client: none models a thrown
validation error (caught by the caller and turned into the fallback). A
non-object (including null and arrays, whose in-operator key test fails)
throws; an object missing one of the score, strengths, weaknesses keys
throws; otherwise the score becomes max(0, min(100, parseInt(score) || 0)),
the two lists are sliced to 3 and padded to exactly 3 with fixed fillers,
and a falsy summary is defaulted. -/
def normalizeEvaluation (v : JsValue) : Option EvalResult :=
  match v with
  | JsValue.obj fields =>
    if !objHasKey fields "score" || !objHasKey fields "strengths" || !objHasKey fields "weaknesses" then
      none
    else
      some
        { score := some (max 0 (min 100 ((jsParseInt ((objGet fields "score").getD JsValue.null)).getD 0)))
          strengths :=
            padToThree
              (match objGet fields "strengths" with
               | some (JsValue.arr xs) => xs
               | _ => [])
              "Análisis pendiente"
          weaknesses :=
            padToThree
              (match objGet fields "weaknesses" with
               | some (JsValue.arr xs) => xs
               | _ => [])
              "Información limitada"
          summary :=
            let sv := (objGet fields "summary").getD JsValue.null
            if jsTruthy sv then sv else JsValue.str "Evaluación completada automáticamente." }
  | _ => none

/-- Upstream behaviour of one Gemini generateContent call: whether the call
or response.text() threw, and the outcome of JSON.parse on the returned
text (none models a parse exception). -/
structure GeminiUpstream where
  transportError : Bool
  parsed : Option JsValue

/-- evaluateCVWithText from the Gemini client: any thrown error (transport,
JSON.parse, normalizeEvaluation validation) is caught and replaced by the
single Gemini fallback; otherwise the normalized evaluation is returned. -/
def evaluateCVWithText (cvText jobDescription : String) (u : GeminiUpstream) : EvalResult :=
  if u.transportError then geminiFallback
  else
    match u.parsed with
    | none => geminiFallback
    | some v =>
      match normalizeEvaluation v with
      | none => geminiFallback
      | some r => r

/-- One row of public.job_roles, restricted to the columns the handlers
under verification read. -/
structure JobRoleRow where
  id : Nat
  title : String
  description : String
  status : String
  createdBy : Nat

/-- One row of public.applications, restricted to the columns the handlers
read or write. cvText empty models both an empty and a NULL cv_text (both
are falsy where the code tests them). -/
structure AppRow where
  id : Nat
  jobRoleId : Nat
  candidateName : String
  candidateEmail : String
  candidatePhone : Option String
  cvFilePath : String
  cvText : String
  status : String

/-- One row of public.evaluations, restricted to the columns the handlers
write. -/
structure EvalRow where
  applicationId : Nat
  score : Option Int
  strengths : List JsValue
  weaknesses : List JsValue
  summary : JsValue
  modelUsed : String

/-- The three tables the submission pipeline touches. -/
structure DbState where
  jobRoles : List JobRoleRow
  applications : List AppRow
  evaluations : List EvalRow

/-- The cvs bucket of the object store: the set of stored keys. -/
structure StorageState where
  keys : List String

/-- Remove one key from the bucket (supabase.storage.remove). -/
def removeKey (s : StorageState) (k : String) : StorageState :=
  { keys := s.keys.filter (fun x => x != k) }

/-- Observable events of a handler run, in the order the source performs
them. -/
inductive Event where
  | beganTx : Event
  | uploadedFile (key : String) : Event
  | extractedText : Event
  | insertedApplication (id : Nat) : Event
  | registeredEvalTask : Event
  | attemptedCleanupDelete (key : String) : Event
  | committedTx : Event
  | rolledBackTx : Event
  | responded (status : Nat) : Event
  | calledScoring : Event
  | insertedEvaluation (id : Nat) : Event
  | loggedEvalInsertError : Event
  | deletedEvaluations (appId : Nat) : Event
  | deletedApplicationRow (id : Nat) : Event
  | attemptedFileDelete (key : String) : Event
deriving DecidableEq

/-- Did a occur strictly before b in the trace (first occurrences). -/
def occursBefore (a b : Event) (t : List Event) : Bool :=
  match t with
  | [] => false
  | x :: rest => if x == b then false else if x == a then rest.contains b else occursBefore a b rest

/-- The multipart request of POST /api/applications. hasFile models
req.file presence; fieldsValid models the outcome of the Joi
createApplicationSchema validation of the string fields (uuid shape, name
length, email format), which is not re-derived here. -/
structure PostRequest where
  hasFile : Bool
  mimetype : String
  fieldsValid : Bool
  jobRoleId : Nat
  candidateName : String
  candidateEmail : String
  candidatePhone : Option String

/-- Environment outcomes of one POST run: success of the storage upload,
the pdf text extraction (with the extracted text), the Application INSERT,
the compensating storage delete, the fresh uuid for the file name, the
fresh Application row id, the Groq upstream behaviour of the background
task and the success of its Evaluation INSERT. -/
structure PostEnv where
  uploadOk : Bool
  extractOk : Bool
  extractedText : String
  insertOk : Bool
  cleanupDeleteOk : Bool
  uuid : String
  freshAppId : Nat
  groq : GroqUpstream
  evalInsertOk : Bool

/-- candidateName.replace of every character outside a-zA-Z0-9 by an
underscore. -/
def sanitizeNameChar (c : Char) : Char :=
  if c.isAlpha || c.isDigit then c else '_'

/-- The generated storage key: uuid, underscore, sanitized candidate name,
fixed .pdf extension. -/
def uniqueFileName (uuid candidateName : String) : String :=
  uuid ++ "_" ++ String.mk (candidateName.toList.map sanitizeNameChar) ++ ".pdf"

/-- The public URL supabase returns for a stored key; its last path
segment is the key itself, which is what the delete route recovers by
splitting on the slash. -/
def storagePublicUrl (fileName : String) : String :=
  "https://storage/cvs/" ++ fileName

/-- Modelled from the spec: the server entry file wiring the Express error
middleware is not under src, so the HTTP status produced when the multer
fileFilter rejects a non-PDF upload is taken from the spec and the API
documentation, which map a wrong file type to InvalidInput, status 400. -/
def multerRejectStatus : Nat := 400

/-- Result of one POST /api/applications run: HTTP status, final database
and storage state (including the effects of the detached background task),
the trace of the synchronous handler, and the trace of the detached task,
whose events happen only after registeredEvalTask but are not ordered
against the tail of the synchronous trace. -/
structure PostResult where
  status : Nat
  db : DbState
  store : StorageState
  mainTrace : List Event
  bgTrace : List Event

/-- Find the job role of the given id with status active (the role check
query of the POST handler). -/
def findActiveRole (db : DbState) (jobRoleId : Nat) : Option JobRoleRow :=
  db.jobRoles.find? (fun r => r.id == jobRoleId && r.status == "active")

/-- Does an application for the same job role and candidate email already
exist (the duplicate check query of the POST handler). -/
def hasDuplicate (db : DbState) (jobRoleId : Nat) (candidateEmail : String) : Bool :=
  db.applications.any (fun a => a.jobRoleId == jobRoleId && a.candidateEmail == candidateEmail)

/-- POST /api/applications from src/routes/applications.js. Source order:
multer fileFilter (non-PDF rejected before the handler), file presence,
Joi validation, active-role check, duplicate check, then a database
transaction whose callback uploads the file, extracts the text, inserts
the Application row and registers the background scoring task with
setImmediate before the callback returns, hence before COMMIT; the inner
catch attempts the compensating storage delete (its own failure only
logged) and rethrows so the transaction helper rolls back; the 201
response is sent after the transaction resolves. The detached task calls
evaluateCV (which never throws) and attempts the Evaluation INSERT, whose
failure is caught and logged. -/
def postApplication (req : PostRequest) (env : PostEnv) (db : DbState) (store : StorageState) : PostResult :=
  if req.mimetype != "application/pdf" then
    { status := multerRejectStatus, db := db, store := store
      mainTrace := [Event.responded multerRejectStatus], bgTrace := [] }
  else if !req.hasFile then
    { status := 400, db := db, store := store, mainTrace := [Event.responded 400], bgTrace := [] }
  else if !req.fieldsValid then
    { status := 400, db := db, store := store, mainTrace := [Event.responded 400], bgTrace := [] }
  else
    match findActiveRole db req.jobRoleId with
    | none =>
      { status := 404, db := db, store := store, mainTrace := [Event.responded 404], bgTrace := [] }
    | some jobRole =>
      if hasDuplicate db req.jobRoleId req.candidateEmail then
        { status := 409, db := db, store := store, mainTrace := [Event.responded 409], bgTrace := [] }
      else
        let fileName := uniqueFileName env.uuid req.candidateName
        if !env.uploadOk then
          { status := 500, db := db, store := store
            mainTrace := [Event.beganTx, Event.rolledBackTx, Event.responded 500], bgTrace := [] }
        else
          let store1 : StorageState := { keys := store.keys ++ [fileName] }
          let cvFilePath := storagePublicUrl fileName
          if !env.extractOk then
            let store2 := if env.cleanupDeleteOk then removeKey store1 fileName else store1
            { status := 500, db := db, store := store2
              mainTrace := [Event.beganTx, Event.uploadedFile fileName,
                Event.attemptedCleanupDelete fileName, Event.rolledBackTx, Event.responded 500]
              bgTrace := [] }
          else if !env.insertOk then
            let store2 := if env.cleanupDeleteOk then removeKey store1 fileName else store1
            { status := 500, db := db, store := store2
              mainTrace := [Event.beganTx, Event.uploadedFile fileName, Event.extractedText,
                Event.attemptedCleanupDelete fileName, Event.rolledBackTx, Event.responded 500]
              bgTrace := [] }
          else
            let row : AppRow :=
              { id := env.freshAppId, jobRoleId := req.jobRoleId
                candidateName := req.candidateName, candidateEmail := req.candidateEmail
                candidatePhone := req.candidatePhone, cvFilePath := cvFilePath
                cvText := env.extractedText, status := "pending" }
            let db1 : DbState := { db with applications := db.applications ++ [row] }
            let ev := evaluateCV env.extractedText jobRole.description env.groq
            let db2 : DbState :=
              if env.evalInsertOk then
                { db1 with evaluations := db1.evaluations ++
                    [{ applicationId := env.freshAppId, score := ev.score
                       strengths := ev.strengths, weaknesses := ev.weaknesses
                       summary := ev.summary, modelUsed := "llama-3.1-8b-instant" }] }
              else db1
            { status := 201, db := db2, store := store1
              mainTrace := [Event.beganTx, Event.uploadedFile fileName, Event.extractedText,
                Event.insertedApplication env.freshAppId, Event.registeredEvalTask,
                Event.committedTx, Event.responded 201]
              bgTrace := [Event.calledScoring] ++
                (if env.evalInsertOk then [Event.insertedEvaluation env.freshAppId]
                 else [Event.loggedEvalInsertError]) }

/-- The authenticated actor: user id and whether the profile role is
admin. -/
structure Actor where
  id : Nat
  isAdmin : Bool

/-- The SELECT joining an application with its job role, used by the PUT,
DELETE and reevaluate handlers. -/
def findAppJoined (db : DbState) (appId : Nat) : Option (AppRow × JobRoleRow) :=
  match db.applications.find? (fun a => a.id == appId) with
  | none => none
  | some a =>
    match db.jobRoles.find? (fun r => r.id == a.jobRoleId) with
    | none => none
    | some r => some (a, r)

/-- Body of PUT /api/applications/:id after Joi validation: each field of
updateApplicationSchema optionally present; fieldsValid models the Joi
outcome. -/
structure PutRequest where
  fieldsValid : Bool
  newStatus : Option String
  newCandidateName : Option String
  newCandidateEmail : Option String
  newCandidatePhone : Option String

/-- Is at least one updatable field present. -/
def putHasUpdates (req : PutRequest) : Bool :=
  req.newStatus.isSome || req.newCandidateName.isSome
    || req.newCandidateEmail.isSome || req.newCandidatePhone.isSome

/-- Apply the present fields of the update body to a row (the dynamic SET
clause of the PUT handler). -/
def applyUpdates (req : PutRequest) (a : AppRow) : AppRow :=
  { a with
    status := req.newStatus.getD a.status
    candidateName := req.newCandidateName.getD a.candidateName
    candidateEmail := req.newCandidateEmail.getD a.candidateEmail
    candidatePhone :=
      match req.newCandidatePhone with
      | some p => some p
      | none => a.candidatePhone }

/-- PUT /api/applications/:id from src/routes/applications.js: Joi
validation, existence check via the join, ownership check, then a direct
UPDATE of the present fields. No duplicate-application check is performed
on a changed candidateEmail. Returns the HTTP status and the new database
state. -/
def putApplication (appId : Nat) (actor : Actor) (req : PutRequest) (db : DbState) : Nat × DbState :=
  if !req.fieldsValid then (400, db)
  else
    match findAppJoined db appId with
    | none => (404, db)
    | some ar =>
      if !actor.isAdmin && ar.2.createdBy != actor.id then (403, db)
      else if !putHasUpdates req then (400, db)
      else
        (200, { db with applications :=
          db.applications.map (fun a => if a.id == appId then applyUpdates req a else a) })

/-- Result of one DELETE /api/applications/:id run. -/
structure DeleteResult where
  status : Nat
  db : DbState
  store : StorageState
  trace : List Event

/-- Last path segment of the stored file URL
(cv_file_path.split of the slash, pop). -/
def lastSegment (s : String) : String :=
  String.mk ((s.toList.reverse.takeWhile (fun c => c != '/')).reverse)

/-- DELETE /api/applications/:id from src/routes/applications.js:
existence check via the join, ownership check, then one transaction whose
callback deletes the Evaluation rows, deletes the Application row and,
when cv_file_path is truthy, attempts the storage removal of the file name
inside a try/catch whose failure is only logged — all before the
transaction helper issues COMMIT; the 200 response follows. storageDeleteOk
is the outcome of the storage removal. -/
def deleteApplication (appId : Nat) (actor : Actor) (storageDeleteOk : Bool) (db : DbState) (store : StorageState) : DeleteResult :=
  match findAppJoined db appId with
  | none => { status := 404, db := db, store := store, trace := [Event.responded 404] }
  | some ar =>
    if !actor.isAdmin && ar.2.createdBy != actor.id then
      { status := 403, db := db, store := store, trace := [Event.responded 403] }
    else
      let db1 : DbState := { db with evaluations := db.evaluations.filter (fun e => e.applicationId != appId) }
      let db2 : DbState := { db1 with applications := db1.applications.filter (fun a => a.id != appId) }
      if !ar.1.cvFilePath.isEmpty then
        let fileName := lastSegment ar.1.cvFilePath
        let store1 := if storageDeleteOk then removeKey store fileName else store
        { status := 200, db := db2, store := store1
          trace := [Event.beganTx, Event.deletedEvaluations appId, Event.deletedApplicationRow appId,
            Event.attemptedFileDelete fileName, Event.committedTx, Event.responded 200] }
      else
        { status := 200, db := db2, store := store
          trace := [Event.beganTx, Event.deletedEvaluations appId, Event.deletedApplicationRow appId,
            Event.committedTx, Event.responded 200] }

/-- Result of one POST /api/evaluations/reevaluate run. -/
structure ReevalResult where
  status : Nat
  db : DbState
  trace : List Event

/-- Build the Evaluation row the reevaluate handler inserts. -/
def mkEvalRow (applicationId : Nat) (ev : EvalResult) (modelUsed : String) : EvalRow :=
  { applicationId := applicationId, score := ev.score, strengths := ev.strengths
    weaknesses := ev.weaknesses, summary := ev.summary, modelUsed := modelUsed }

/-- Overwrite the scoring fields of an existing Evaluation row in place
(the UPDATE branch of the reevaluate handler). -/
def overwriteEvalRow (ev : EvalResult) (modelUsed : String) (e : EvalRow) : EvalRow :=
  { e with score := ev.score, strengths := ev.strengths
           weaknesses := ev.weaknesses, summary := ev.summary, modelUsed := modelUsed }

/-- POST /api/evaluations/reevaluate from src/routes/evaluations.js: Joi
validation of applicationId (fieldsValid), fetch of cv_text and the job
description via the join (404 when absent), ownership check (403), falsy
cv_text rejected with 400 before any scoring call, then a synchronous
evaluateCVWithText call followed by update-if-exists else insert of the
Evaluation row with model gemini-1.5-flash. The database queries
themselves are modelled as succeeding. -/
def reevaluate (applicationId : Nat) (actor : Actor) (fieldsValid : Bool) (u : GeminiUpstream) (db : DbState) : ReevalResult :=
  if !fieldsValid then { status := 400, db := db, trace := [Event.responded 400] }
  else
    match findAppJoined db applicationId with
    | none => { status := 404, db := db, trace := [Event.responded 404] }
    | some ar =>
      if !actor.isAdmin && ar.2.createdBy != actor.id then
        { status := 403, db := db, trace := [Event.responded 403] }
      else if ar.1.cvText.isEmpty then
        { status := 400, db := db, trace := [Event.responded 400] }
      else
        let ev := evaluateCVWithText ar.1.cvText ar.2.description u
        let db1 : DbState :=
          if db.evaluations.any (fun e => e.applicationId == applicationId) then
            { db with evaluations :=
                db.evaluations.map (fun e =>
                  if e.applicationId == applicationId then overwriteEvalRow ev "gemini-1.5-flash" e else e) }
          else
            { db with evaluations := db.evaluations ++ [mkEvalRow applicationId ev "gemini-1.5-flash"] }
        { status := 200, db := db1
          trace := [Event.calledScoring, Event.insertedEvaluation applicationId, Event.responded 200] }

/-- Fixture: an active job role owned by user 7. -/
def roleR : JobRoleRow :=
  { id := 1, title := "Dev", description := "desc", status := "active", createdBy := 7 }

/-- Fixture: a database holding only the active job role. -/
def db0 : DbState :=
  { jobRoles := [roleR], applications := [], evaluations := [] }

/-- Fixture: an empty cvs bucket. -/
def store0 : StorageState := { keys := [] }

/-- Fixture: an admin actor. -/
def admin : Actor := { id := 99, isAdmin := true }

/-- Fixture: a Groq upstream where the request itself throws. -/
def groqDown : GroqUpstream := { transportError := false, content := none, parsed := none }

/-- Fixture: a Groq upstream where the request throws before any content
arrives. -/
def groqTransportDown : GroqUpstream := { transportError := true, content := none, parsed := none }

/-- Fixture: a Gemini upstream where the request throws. -/
def geminiDown : GeminiUpstream := { transportError := true, parsed := none }

/-- Fixture: a well-formed Groq response whose strengths and weaknesses
arrays hold a single element each. -/
def groqShortArrays : GroqUpstream :=
  { transportError := false
    content := some "\x7b\"score\": 80, \"strengths\": [\"a\"], \"weaknesses\": [\"b\"]\x7d"
    parsed := some (JsValue.obj
      [("score", JsValue.num 80),
       ("strengths", JsValue.arr [JsValue.str "a"]),
       ("weaknesses", JsValue.arr [JsValue.str "b"])]) }

/-- Fixture: a Groq response whose body is not JSON, so JSON.parse
throws. -/
def groqMalformed : GroqUpstream :=
  { transportError := false, content := some "not json", parsed := none }

/-- Fixture: a well-formed Groq response whose score is the legitimate
number 0, with non-empty strengths and weaknesses. -/
def groqZeroScore : GroqUpstream :=
  { transportError := false
    content := some "\x7b\"score\": 0, \"strengths\": [\"a\",\"b\"], \"weaknesses\": [\"c\",\"d\"]\x7d"
    parsed := some (JsValue.obj
      [("score", JsValue.num 0),
       ("strengths", JsValue.arr [JsValue.str "a", JsValue.str "b"]),
       ("weaknesses", JsValue.arr [JsValue.str "c", JsValue.str "d"])]) }

/-- Fixture: the concrete content string of groqZeroScore, reused when
quantifying over parsed objects. -/
def groqZeroScoreContent : String :=
  "\x7b\"score\": 0, \"strengths\": [\"a\",\"b\"], \"weaknesses\": [\"c\",\"d\"]\x7d"

/-- Fixture: a valid submission request for the active role. -/
def reqA : PostRequest :=
  { hasFile := true, mimetype := "application/pdf", fieldsValid := true
    jobRoleId := 1, candidateName := "Ana", candidateEmail := "a@x.com", candidatePhone := none }

/-- Fixture: an all-success environment whose background scoring call
fails with a transport error. -/
def envA : PostEnv :=
  { uploadOk := true, extractOk := true, extractedText := "cv text", insertOk := true
    cleanupDeleteOk := true, uuid := "u1", freshAppId := 10
    groq := groqTransportDown, evalInsertOk := true }

/-- Fixture: the result of submitting reqA against the empty database. -/
def rA : PostResult := postApplication reqA envA db0 store0

/-- Fixture: a second valid submission for the same role with a different
email. -/
def reqB : PostRequest :=
  { reqA with candidateName := "Bob", candidateEmail := "b@x.com" }

/-- Fixture: environment of the second submission. -/
def envB : PostEnv :=
  { envA with uuid := "u2", freshAppId := 11, evalInsertOk := false }

/-- Fixture: the result of submitting reqB after reqA. -/
def rB : PostResult := postApplication reqB envB rA.db rA.store

/-- Fixture: an update body that only changes the candidate email to the
email already used by the first application. -/
def putReqEmail : PutRequest :=
  { fieldsValid := true, newStatus := none, newCandidateName := none
    newCandidateEmail := some "a@x.com", newCandidatePhone := none }

/-- Fixture: environment of a submission whose text extraction fails after
a successful upload. -/
def envC4 : PostEnv := { envA with extractOk := false }

/-- Fixture: a submission carrying a non-PDF file. -/
def reqNonPdf : PostRequest := { reqA with mimetype := "text/plain" }

/-- Fixture: a submission referencing a job role id that does not
exist. -/
def reqNoRole : PostRequest := { reqA with jobRoleId := 2 }

/-- Fixture: the Application row rA persists, spelled out. -/
def rowAFix : AppRow :=
  { id := 10, jobRoleId := 1, candidateName := "Ana", candidateEmail := "a@x.com"
    candidatePhone := none, cvFilePath := "https://storage/cvs/u1_Ana.pdf"
    cvText := "cv text", status := "pending" }

/-- Fixture: an application whose stored extracted text is empty. -/
def appEmptyText : AppRow :=
  { id := 20, jobRoleId := 1, candidateName := "Eve", candidateEmail := "e@x.com"
    candidatePhone := none, cvFilePath := "https://storage/cvs/u3_Eve.pdf"
    cvText := "", status := "pending" }

/-- Fixture: a database holding the active role and the empty-text
application. -/
def dbEmptyText : DbState :=
  { jobRoles := [roleR], applications := [appEmptyText], evaluations := [] }

/-- A clamped score is within [0, 100]. -/
theorem clampScore_bounds (x : Option Int) (n : Int) (h : clampScore x = some n) :
    0 ≤ n ∧ n ≤ 100 := by
  cases x with
  | none => simp [clampScore] at h
  | some m =>
    simp only [clampScore, Option.some.injEq] at h
    subst h
    exact ⟨le_max_left 0 (min 100 m), max_le (by norm_num) (min_le_left 100 m)⟩

/-- padToThree always produces exactly three elements. -/
theorem padToThree_length (xs : List JsValue) (f : String) : (padToThree xs f).length = 3 := by
  simp only [padToThree, List.length_append, List.length_replicate, List.length_take]
  omega

/-- The sliced-or-replaced lists of evaluateCV never exceed two
elements. -/
theorem groqListOfField_length (v : Option JsValue) (d1 d2 : String) :
    (groqListOfField v d1 d2).length ≤ 2 := by
  unfold groqListOfField
  split
  · simp only [List.length_take]; omega
  · simp

/-- Every branch of evaluateCV yields a score that, when it is a number,
lies in [0, 100], and strengths and weaknesses lists of at most two
elements. -/
theorem evaluateCV_shape (cv jd : String) (u : GroqUpstream) :
    (∀ n : Int, (evaluateCV cv jd u).score = some n → 0 ≤ n ∧ n ≤ 100)
    ∧ (evaluateCV cv jd u).strengths.length ≤ 2
    ∧ (evaluateCV cv jd u).weaknesses.length ≤ 2 := by
  unfold evaluateCV
  repeat' split
  all_goals
    refine ⟨fun n h => ?_, ?_, ?_⟩ <;>
      first
        | (simp only [groqErrorFallback, Option.some.injEq] at h; omega)
        | (simp only [groqParseFallback, Option.some.injEq] at h; omega)
        | exact clampScore_bounds _ _ h
        | decide
        | exact groqListOfField_length _ _ _

/-- normalizeEvaluation, when it does not throw, yields a score in
[0, 100] and exactly three strengths and three weaknesses. -/
theorem normalizeEvaluation_shape (v : JsValue) (r : EvalResult)
    (h : normalizeEvaluation v = some r) :
    (∃ n : Int, r.score = some n ∧ 0 ≤ n ∧ n ≤ 100)
    ∧ r.strengths.length = 3 ∧ r.weaknesses.length = 3 := by
  unfold normalizeEvaluation at h
  split at h
  case _ fields =>
    split at h
    · exact absurd h (by simp)
    · simp only [Option.some.injEq] at h
      subst h
      refine ⟨⟨_, rfl, ?_, ?_⟩, padToThree_length _ _, padToThree_length _ _⟩
      · exact le_max_left _ _
      · exact max_le (by norm_num) (min_le_left _ _)
  case _ => exact absurd h (by simp)

/-- Every branch of evaluateCVWithText yields a numeric score in [0, 100]
and exactly three strengths and three weaknesses. -/
theorem evaluateCVWithText_shape (cv jd : String) (u : GeminiUpstream) :
    (∃ n : Int, (evaluateCVWithText cv jd u).score = some n ∧ 0 ≤ n ∧ n ≤ 100)
    ∧ (evaluateCVWithText cv jd u).strengths.length = 3
    ∧ (evaluateCVWithText cv jd u).weaknesses.length = 3 := by
  unfold evaluateCVWithText
  split
  · exact ⟨⟨0, rfl, by norm_num⟩, rfl, rfl⟩
  · split
    · exact ⟨⟨0, rfl, by norm_num⟩, rfl, rfl⟩
    · split
      case _ heq => exact ⟨⟨0, rfl, by norm_num⟩, rfl, rfl⟩
      case _ r heq => exact normalizeEvaluation_shape _ _ heq

/-- C1 counterexample: the claim that evaluate always returns exactly
N-element strengths and weaknesses fails for the Groq variant (N = 2): a
well-formed upstream response whose strengths array holds one element is
sliced but never padded, so evaluateCV returns a 1-element list. -/
theorem c1_groq_not_exactly_two :
    (evaluateCV "cv text" "job description" groqShortArrays).strengths.length ≠ 2 := by
  decide

/-- C1 amended: for every upstream behaviour the Gemini variant
evaluateCVWithText returns a numeric score in [0, 100] and exactly
3-element strengths and weaknesses lists; the Groq variant evaluateCV
returns a score in [0, 100] whenever the score is a number, and strengths
and weaknesses of at most 2 elements — exactly 2 on every fallback path,
but possibly fewer on a parsed response carrying shorter arrays. -/
theorem c1_evaluate_shapes (cv jd : String) (ug : GroqUpstream) (uv : GeminiUpstream) :
    ((∀ n : Int, (evaluateCV cv jd ug).score = some n → 0 ≤ n ∧ n ≤ 100)
      ∧ (evaluateCV cv jd ug).strengths.length ≤ 2
      ∧ (evaluateCV cv jd ug).weaknesses.length ≤ 2)
    ∧ ((∃ n : Int, (evaluateCVWithText cv jd uv).score = some n ∧ 0 ≤ n ∧ n ≤ 100)
      ∧ (evaluateCVWithText cv jd uv).strengths.length = 3
      ∧ (evaluateCVWithText cv jd uv).weaknesses.length = 3) :=
  ⟨evaluateCV_shape cv jd ug, evaluateCVWithText_shape cv jd uv⟩

/-- C1 witness: the amended theorem applied to the transport-failure
upstreams. -/
theorem c1_evaluate_shapes_witness :
    ((0 : Int) ≤ 0 ∧ (0 : Int) ≤ 100)
    ∧ (evaluateCVWithText "cv text" "job description" geminiDown).strengths.length = 3 :=
  ⟨(c1_evaluate_shapes "cv text" "job description" groqDown geminiDown).1.1 0 rfl,
   (c1_evaluate_shapes "cv text" "job description" groqDown geminiDown).2.2.1⟩

/-- C2 counterexample: the claim that every failure yields the single
score-0 fallback fails: a malformed-JSON upstream response makes
evaluateCV return the distinct parse fallback with score 50. -/
theorem c2_parse_fallback_not_zero :
    evaluateCV "cv text" "job description" groqMalformed = groqParseFallback
    ∧ (evaluateCV "cv text" "job description" groqMalformed).score ≠ some 0 := by
  exact ⟨rfl, by decide⟩

/-- C2 amended: neither variant raises past its boundary (both are total
and every branch yields a value); a transport error or a missing upstream
message yields the deterministic score-0 error fallback whose summary
notes manual review; a malformed upstream response yields one of the two
deterministic Groq fallbacks (the score-50 parse fallback in the
non-filtered case), and on the Gemini variant every such failure yields
its single score-0 fallback. -/
theorem c2_fallbacks (cv jd : String) (u : GroqUpstream) (v : GeminiUpstream) :
    (u.transportError = true → evaluateCV cv jd u = groqErrorFallback)
    ∧ (u.content = none → evaluateCV cv jd u = groqErrorFallback)
    ∧ (u.transportError = false → u.parsed = none →
        evaluateCV cv jd u = groqErrorFallback ∨ evaluateCV cv jd u = groqParseFallback)
    ∧ ((v.transportError = true ∨ v.parsed = none) → evaluateCVWithText cv jd v = geminiFallback) := by
  refine ⟨fun h => ?_, fun h => ?_, fun h1 h2 => ?_, fun h => ?_⟩
  · simp [evaluateCV, h]
  · cases ht : u.transportError <;> simp [evaluateCV, ht, h]
  · unfold evaluateCV
    rw [h1, h2]
    repeat' split
    all_goals first | (left; rfl) | (right; rfl) | simp_all
  · rcases h with h | h
    · simp [evaluateCVWithText, h]
    · cases ht : v.transportError <;> simp [evaluateCVWithText, ht, h]

/-- C2 witness: the amended theorem applied to the transport-failure and
missing-content upstreams. -/
theorem c2_fallbacks_witness :
    evaluateCV "cv text" "job description" groqTransportDown = groqErrorFallback
    ∧ evaluateCV "cv text" "job description" groqDown = groqErrorFallback
    ∧ evaluateCVWithText "cv text" "job description" geminiDown = geminiFallback :=
  ⟨(c2_fallbacks "cv text" "job description" groqTransportDown geminiDown).1 rfl,
   (c2_fallbacks "cv text" "job description" groqDown geminiDown).2.1 rfl,
   (c2_fallbacks "cv text" "job description" groqDown geminiDown).2.2.2 (Or.inl rfl)⟩

/-- C7 counterexample: after one submission whose background Groq scoring
fell back and one reevaluate on the same application, the Evaluation row
written by the background task has 2-element lists while the row
reevaluate overwrote has 3-element lists — no single pipeline-wide N
exists. -/
theorem c7_two_different_ns :
    (rA.db.evaluations.map (fun e => e.strengths.length)) = [2]
    ∧ ((reevaluate 10 admin true geminiDown rA.db).db.evaluations.map
        (fun e => e.strengths.length)) = [3] := by
  decide

/-- C7 amended: the submission pipeline's background task stores Groq
results, whose lists never exceed 2 elements, while reevaluate stores
Gemini results with exactly 3 elements: the two N values differ, so no
single N is applied consistently across the pipeline. -/
theorem c7_list_lengths (cv jd : String) (ug : GroqUpstream) (uv : GeminiUpstream) :
    (evaluateCV cv jd ug).strengths.length ≤ 2
    ∧ (evaluateCV cv jd ug).weaknesses.length ≤ 2
    ∧ (evaluateCVWithText cv jd uv).strengths.length = 3
    ∧ (evaluateCVWithText cv jd uv).weaknesses.length = 3 :=
  ⟨(evaluateCV_shape cv jd ug).2.1, (evaluateCV_shape cv jd ug).2.2,
   (evaluateCVWithText_shape cv jd uv).2.1, (evaluateCVWithText_shape cv jd uv).2.2⟩

/-- C10: a well-formed Groq response whose score field is the number 0 is
falsy, fails the completeness check of evaluateCV and is replaced by the
parse fallback with score 50 — a legitimate upstream score of 0 is never
returned as 0. -/
theorem c10_zero_score_replaced (cv jd : String) (fields : List (String × JsValue))
    (h : objGet fields "score" = some (JsValue.num 0)) :
    evaluateCV cv jd
      { transportError := false, content := some groqZeroScoreContent
        parsed := some (JsValue.obj fields) } = groqParseFallback := by
  unfold evaluateCV
  simp only [h, jsTruthyOpt, jsTruthy]
  have hne : groqZeroScoreContent.isEmpty = false := by decide
  have hns : containsSafe groqZeroScoreContent = false := by decide
  simp [hne, hns]

/-- C10 witness: the theorem applied to the concrete score-0 response. -/
theorem c10_zero_score_replaced_witness :
    evaluateCV "cv text" "job description" groqZeroScore = groqParseFallback :=
  c10_zero_score_replaced "cv text" "job description"
    [("score", JsValue.num 0),
     ("strengths", JsValue.arr [JsValue.str "a", JsValue.str "b"]),
     ("weaknesses", JsValue.arr [JsValue.str "c", JsValue.str "d"])] rfl

/-- C3 counterexample: in the all-success submission, the background
scoring task is registered by setImmediate strictly before the COMMIT of
the Application transaction and before the 201 response is determined —
not after them as claimed. -/
theorem c3_dispatch_before_commit :
    occursBefore Event.registeredEvalTask Event.committedTx rA.mainTrace = true
    ∧ occursBefore Event.registeredEvalTask (Event.responded 201) rA.mainTrace = true := by
  decide

/-- C3 amended: on the success path the handler inserts the Application
row, registers the background scoring task, commits, and only then
responds 201 — the dispatch happens inside the transaction, before
COMMIT — and the background task is invisible to the response: changing
its upstream behaviour or the fate of its Evaluation insert changes
neither the status nor the synchronous trace. -/
theorem c3_dispatch_and_response (req : PostRequest) (env : PostEnv) (db : DbState)
    (store : StorageState) (jr : JobRoleRow)
    (hm : req.mimetype = "application/pdf") (hf : req.hasFile = true) (hv : req.fieldsValid = true)
    (hrole : findActiveRole db req.jobRoleId = some jr)
    (hdup : hasDuplicate db req.jobRoleId req.candidateEmail = false)
    (hup : env.uploadOk = true) (hex : env.extractOk = true) (hins : env.insertOk = true) :
    (postApplication req env db store).status = 201
    ∧ (postApplication req env db store).mainTrace
        = [Event.beganTx, Event.uploadedFile (uniqueFileName env.uuid req.candidateName),
           Event.extractedText, Event.insertedApplication env.freshAppId, Event.registeredEvalTask,
           Event.committedTx, Event.responded 201]
    ∧ ∀ g : GroqUpstream, ∀ b : Bool,
        (postApplication req { env with groq := g, evalInsertOk := b } db store).status
            = (postApplication req env db store).status
        ∧ (postApplication req { env with groq := g, evalInsertOk := b } db store).mainTrace
            = (postApplication req env db store).mainTrace := by
  unfold postApplication
  simp [hm, hf, hv, hrole, hdup, hup, hex, hins]

/-- C3 witness: the amended theorem applied to the concrete all-success
submission. -/
theorem c3_dispatch_and_response_witness :
    (postApplication reqA envA db0 store0).status = 201
    ∧ (postApplication reqA { envA with groq := groqMalformed, evalInsertOk := false } db0 store0).status
        = (postApplication reqA envA db0 store0).status :=
  ⟨(c3_dispatch_and_response reqA envA db0 store0 roleR rfl rfl rfl rfl rfl rfl rfl rfl).1,
   ((c3_dispatch_and_response reqA envA db0 store0 roleR rfl rfl rfl rfl rfl rfl rfl rfl).2.2
      groqMalformed false).1⟩

/-- C4: when the upload succeeded but text extraction or the Application
insert fails, the handler responds 500, the transaction is rolled back so
the database is unchanged, the compensating delete of the uploaded key is
attempted, a successful delete leaves the key absent from the bucket, and
a failed delete is only logged: the response is the same 500 and the key
is simply left behind. -/
theorem c4_compensating_cleanup (req : PostRequest) (env : PostEnv) (db : DbState)
    (store : StorageState) (jr : JobRoleRow)
    (hm : req.mimetype = "application/pdf") (hf : req.hasFile = true) (hv : req.fieldsValid = true)
    (hrole : findActiveRole db req.jobRoleId = some jr)
    (hdup : hasDuplicate db req.jobRoleId req.candidateEmail = false)
    (hup : env.uploadOk = true)
    (hfail : env.extractOk = false ∨ env.insertOk = false) :
    (postApplication req env db store).status = 500
    ∧ (postApplication req env db store).db = db
    ∧ Event.rolledBackTx ∈ (postApplication req env db store).mainTrace
    ∧ Event.attemptedCleanupDelete (uniqueFileName env.uuid req.candidateName)
        ∈ (postApplication req env db store).mainTrace
    ∧ (env.cleanupDeleteOk = true →
        uniqueFileName env.uuid req.candidateName ∉ (postApplication req env db store).store.keys)
    ∧ (env.cleanupDeleteOk = false →
        (postApplication req env db store).store.keys
          = store.keys ++ [uniqueFileName env.uuid req.candidateName]) := by
  unfold postApplication
  by_cases hex : env.extractOk
  · have hins : env.insertOk = false := by
      rcases hfail with h | h
      · exact absurd hex (by simp [h])
      · exact h
    simp [hm, hf, hv, hrole, hdup, hup, hex, hins]
    refine ⟨fun hc => ?_, fun hc => ?_⟩ <;> simp [hc, removeKey]
  · simp only [Bool.not_eq_true] at hex
    simp [hm, hf, hv, hrole, hdup, hup, hex]
    refine ⟨fun hc => ?_, fun hc => ?_⟩ <;> simp [hc, removeKey]

/-- C4 witness: the theorem applied to the concrete failing-extraction
submission. -/
theorem c4_compensating_cleanup_witness :
    (postApplication reqA envC4 db0 store0).status = 500
    ∧ (postApplication reqA envC4 db0 store0).db = db0
    ∧ "u1_Ana.pdf" ∉ (postApplication reqA envC4 db0 store0).store.keys :=
  ⟨(c4_compensating_cleanup reqA envC4 db0 store0 roleR rfl rfl rfl rfl rfl rfl (Or.inl rfl)).1,
   (c4_compensating_cleanup reqA envC4 db0 store0 roleR rfl rfl rfl rfl rfl rfl (Or.inl rfl)).2.1,
   (c4_compensating_cleanup reqA envC4 db0 store0 roleR rfl rfl rfl rfl rfl rfl (Or.inl rfl)).2.2.2.2.1 rfl⟩

/-- C5 counterexample: the delete handler attempts the storage removal of
the CV file strictly before the COMMIT of the row-deleting transaction,
not after the transaction commits as claimed. -/
theorem c5_file_delete_before_commit :
    occursBefore (Event.attemptedFileDelete "u1_Ana.pdf") Event.committedTx
      (deleteApplication 10 admin true rA.db rA.store).trace = true := by
  decide

/-- C5 amended: the delete handler removes the Evaluation rows and the
Application row inside one transaction (both are gone from the resulting
state), attempts the storage removal of the file inside that same
transaction — after the row deletions and before COMMIT — and a storage
failure is only logged: the handler still responds 200 with the rows
deleted and the bucket left unchanged. -/
theorem c5_delete_semantics (appId : Nat) (actor : Actor) (sdOk : Bool) (db : DbState)
    (store : StorageState) (ar : AppRow × JobRoleRow)
    (h : findAppJoined db appId = some ar)
    (hperm : (!actor.isAdmin && ar.2.createdBy != actor.id) = false)
    (hpath : ar.1.cvFilePath.isEmpty = false) :
    (deleteApplication appId actor sdOk db store).status = 200
    ∧ (∀ e ∈ (deleteApplication appId actor sdOk db store).db.evaluations, e.applicationId ≠ appId)
    ∧ (∀ a ∈ (deleteApplication appId actor sdOk db store).db.applications, a.id ≠ appId)
    ∧ (deleteApplication appId actor sdOk db store).trace
        = [Event.beganTx, Event.deletedEvaluations appId, Event.deletedApplicationRow appId,
           Event.attemptedFileDelete (lastSegment ar.1.cvFilePath), Event.committedTx,
           Event.responded 200]
    ∧ (sdOk = false → (deleteApplication appId actor sdOk db store).store = store) := by
  unfold deleteApplication
  rw [h]
  simp only [hperm, hpath, Bool.false_eq_true, if_false, Bool.not_eq_true]
  refine ⟨rfl, fun e he => ?_, fun a ha => ?_, rfl, fun hs => ?_⟩
  · have := List.of_mem_filter he
    simpa using this
  · have := List.of_mem_filter ha
    simpa using this
  · simp [hs]

/-- C5 witness: the amended theorem applied to the concrete database with
a failing storage removal. -/
theorem c5_delete_semantics_witness :
    (deleteApplication 10 admin false rA.db rA.store).status = 200
    ∧ (deleteApplication 10 admin false rA.db rA.store).store = rA.store :=
  ⟨(c5_delete_semantics 10 admin false rA.db rA.store (rowAFix, roleR) rfl rfl rfl).1,
   (c5_delete_semantics 10 admin false rA.db rA.store (rowAFix, roleR) rfl rfl rfl).2.2.2.2 rfl⟩

/-- C6: every validation failure of the submission handler — non-PDF
upload, missing file, missing or inactive job role, duplicate
application — is returned before any mutation: the database and the
bucket are unchanged and the trace holds nothing but the error response,
so the object store is never called and no Application row is
inserted. -/
theorem c6_validation_before_mutation (req : PostRequest) (env : PostEnv) (db : DbState)
    (store : StorageState) :
    (req.mimetype ≠ "application/pdf" →
      (postApplication req env db store).status = 400
      ∧ (postApplication req env db store).db = db
      ∧ (postApplication req env db store).store = store
      ∧ (postApplication req env db store).mainTrace = [Event.responded 400]
      ∧ (postApplication req env db store).bgTrace = [])
    ∧ (req.mimetype = "application/pdf" → req.hasFile = false →
      (postApplication req env db store).status = 400
      ∧ (postApplication req env db store).db = db
      ∧ (postApplication req env db store).store = store
      ∧ (postApplication req env db store).mainTrace = [Event.responded 400]
      ∧ (postApplication req env db store).bgTrace = [])
    ∧ (req.mimetype = "application/pdf" → req.hasFile = true → req.fieldsValid = true →
      findActiveRole db req.jobRoleId = none →
      (postApplication req env db store).status = 404
      ∧ (postApplication req env db store).db = db
      ∧ (postApplication req env db store).store = store
      ∧ (postApplication req env db store).mainTrace = [Event.responded 404]
      ∧ (postApplication req env db store).bgTrace = [])
    ∧ (∀ jr : JobRoleRow, req.mimetype = "application/pdf" → req.hasFile = true →
      req.fieldsValid = true → findActiveRole db req.jobRoleId = some jr →
      hasDuplicate db req.jobRoleId req.candidateEmail = true →
      (postApplication req env db store).status = 409
      ∧ (postApplication req env db store).db = db
      ∧ (postApplication req env db store).store = store
      ∧ (postApplication req env db store).mainTrace = [Event.responded 409]
      ∧ (postApplication req env db store).bgTrace = []) := by
  refine ⟨fun hm => ?_, fun hm hf => ?_, fun hm hf hv hrole => ?_, fun jr hm hf hv hrole hdup => ?_⟩
  · have hbne : (req.mimetype != "application/pdf") = true := by
      simpa using hm
    simp [postApplication, hbne, multerRejectStatus]
  · simp [postApplication, hm, hf]
  · simp [postApplication, hm, hf, hv, hrole]
  · simp [postApplication, hm, hf, hv, hrole, hdup]

/-- C6 witness: the theorem applied to a non-PDF submission, a submission
against a missing role, and a duplicate submission. -/
theorem c6_validation_before_mutation_witness :
    ((postApplication reqNonPdf envA db0 store0).status = 400
      ∧ (postApplication reqNonPdf envA db0 store0).store = store0)
    ∧ ((postApplication reqNoRole envA db0 store0).status = 404
      ∧ (postApplication reqNoRole envA db0 store0).db = db0)
    ∧ ((postApplication reqA envA rA.db rA.store).status = 409
      ∧ (postApplication reqA envA rA.db rA.store).db = rA.db) :=
  ⟨⟨((c6_validation_before_mutation reqNonPdf envA db0 store0).1 (by decide)).1,
    ((c6_validation_before_mutation reqNonPdf envA db0 store0).1 (by decide)).2.2.1⟩,
   ⟨((c6_validation_before_mutation reqNoRole envA db0 store0).2.2.1 rfl rfl rfl rfl).1,
    ((c6_validation_before_mutation reqNoRole envA db0 store0).2.2.1 rfl rfl rfl rfl).2.1⟩,
   ⟨((c6_validation_before_mutation reqA envA rA.db rA.store).2.2.2 roleR rfl rfl rfl rfl rfl).1,
    ((c6_validation_before_mutation reqA envA rA.db rA.store).2.2.2 roleR rfl rfl rfl rfl rfl).2.1⟩⟩

/-- C8: reevaluate on an application whose stored extracted text is empty
responds 400 before doing anything: the database is unchanged and the
trace holds only the error response — no scoring call, no Evaluation
insert or update. -/
theorem c8_empty_text_no_scoring (applicationId : Nat) (actor : Actor) (u : GeminiUpstream)
    (db : DbState) (ar : AppRow × JobRoleRow)
    (h : findAppJoined db applicationId = some ar)
    (hperm : (!actor.isAdmin && ar.2.createdBy != actor.id) = false)
    (htext : ar.1.cvText = "") :
    (reevaluate applicationId actor true u db).status = 400
    ∧ (reevaluate applicationId actor true u db).db = db
    ∧ (reevaluate applicationId actor true u db).trace = [Event.responded 400]
    ∧ Event.calledScoring ∉ (reevaluate applicationId actor true u db).trace := by
  unfold reevaluate
  rw [h]
  have he : ("" : String).isEmpty = true := by decide
  simp [hperm, htext, he]

/-- C8 witness: the theorem applied to the concrete empty-text
application. -/
theorem c8_empty_text_no_scoring_witness :
    (reevaluate 20 admin true geminiDown dbEmptyText).status = 400
    ∧ (reevaluate 20 admin true geminiDown dbEmptyText).db = dbEmptyText :=
  ⟨(c8_empty_text_no_scoring 20 admin geminiDown dbEmptyText (appEmptyText, roleR) rfl rfl rfl).1,
   (c8_empty_text_no_scoring 20 admin geminiDown dbEmptyText (appEmptyText, roleR) rfl rfl rfl).2.1⟩

/-- C9: the single-application-per-role-and-email invariant is not
preserved by the update handler: creating application 10 for role 1 with
one email, creating application 11 for role 1 with another email, and
then updating application 11 to the first email — all strictly
sequential — yields two Application rows with the same role and email,
because the PUT path performs no duplicate check. -/
theorem c9_put_breaks_uniqueness :
    (postApplication reqA envA db0 store0).status = 201
    ∧ (postApplication reqB envB rA.db rA.store).status = 201
    ∧ (putApplication 11 admin putReqEmail rB.db).1 = 200
    ∧ ((putApplication 11 admin putReqEmail rB.db).2.applications.filter
        (fun a => a.jobRoleId == 1 && a.candidateEmail == "a@x.com")).length = 2 := by
  decide

end AIRecruit
